import Mathlib

/-!
Verification of the worksheet comparison-and-extraction engine of the
SharePoint automation repository.  The Python source is shallowly embedded:
pure fragments become Lean functions, spreadsheet side effects are modelled
as the data the code writes, and Python exceptions are modelled by the value
that the enclosing handler returns (every relevant source function catches
all exceptions internally).  Functions keep the names of the source
(src/src/utils/comparison.py, src/src/processors/er_extractor.py,
src/src/processors/gsn_vs_ad_extractor.py,
src/src/processors/weekly_report_extractor.py).
-/

namespace Automation

/-- Python regex `\s` over ASCII input, also the character set stripped by
`str.strip()`: space, tab, newline, CR, VT, FF. -/
def isPySpace (c : Char) : Bool :=
  c == ' ' || c == '\t' || c == '\n' || c == '\r' || c == '\x0b' || c == '\x0c'

def listStartsWith : List Char → List Char → Bool
  | [], _ => true
  | _ :: _, [] => false
  | a :: as, b :: bs => a == b && listStartsWith as bs

def listIsInfix (needle : List Char) : List Char → Bool
  | [] => listStartsWith needle []
  | b :: bs => listStartsWith needle (b :: bs) || listIsInfix needle bs

/-- Python `needle in hay` (substring containment) on strings. -/
def strContains (hay needle : String) : Bool :=
  listIsInfix needle.toList hay.toList

/-- Python `str.strip()` (whitespace at both ends removed), implemented over
the character list so that it evaluates inside the kernel. -/
def pyStrip (s : String) : String :=
  (((s.toList.dropWhile isPySpace).reverse.dropWhile isPySpace).reverse).asString

/-- Python `str.lower()` restricted to ASCII input. -/
def pyLower (s : String) : String :=
  (s.toList.map Char.toLower).asString

/-- Python `<` on lists of characters: lexicographic by code point, a proper
non-empty list extension being greater than its proper initial segment. -/
def pyListLt : List Char → List Char → Bool
  | [], [] => false
  | [], _ :: _ => true
  | _ :: _, [] => false
  | a :: as, b :: bs =>
    decide (a.toNat < b.toNat) || (a.toNat == b.toNat && pyListLt as bs)

/-- Python `<` on strings (code-point lexicographic comparison). -/
def pyStrLt (a b : String) : Bool :=
  pyListLt a.toList b.toList

/-- One step of the stable insertion used to model Python `sorted`: insert
`x` before the first element that is strictly greater. -/
def pyInsert (x : String) : List String → List String
  | [] => [x]
  | y :: ys => if pyStrLt x y then x :: y :: ys else y :: pyInsert x ys

/-- Python `sorted` on a list of strings: stable ascending sort under the
code-point order. -/
def pySorted (l : List String) : List String :=
  l.foldr pyInsert []

/-- Match the regex `\d+-\d+\s+[A-Za-z]+\s+\d{4}` anchored at the head of the
character list.  All character classes of the pattern are pairwise disjoint,
so maximal munch is equivalent to backtracking here. -/
def dateRangeMatchAt (cs : List Char) : Bool :=
  let p1 := cs.span Char.isDigit
  if p1.1.isEmpty then false else
  match p1.2 with
  | '-' :: r2 =>
    let p2 := r2.span Char.isDigit
    if p2.1.isEmpty then false else
    let p3 := p2.2.span isPySpace
    if p3.1.isEmpty then false else
    let p4 := p3.2.span Char.isAlpha
    if p4.1.isEmpty then false else
    let p5 := p4.2.span isPySpace
    if p5.1.isEmpty then false else
    (p5.2.take 4).length == 4 && (p5.2.take 4).all Char.isDigit
  | _ => false

def dateRangeSearchAux : List Char → Bool
  | [] => false
  | c :: cs => dateRangeMatchAt (c :: cs) || dateRangeSearchAux cs

/-- Python `re.search` truthiness of the date-range regex (digits, dash,
digits, spaces, letters, spaces, 4 digits) somewhere in `s`. -/
def matchesDateRangePattern (s : String) : Bool :=
  dateRangeSearchAux s.toList

/-- Python `list.index`-style scan: index of the first element satisfying
`p`, if any (used for the row scans of the extractors). -/
def pyFindIdx {α : Type} (p : α → Bool) : List α → Option Nat
  | [] => none
  | x :: xs => if p x then some 0 else (pyFindIdx p xs).map (· + 1)

/-! ## SetComparator: `compare_data_sets` (src/src/utils/comparison.py:9-57) -/

structure ComparisonResult where
  MissingInER : List String
  MissingInGSN : List String
deriving DecidableEq, Repr

/-- Model of `compare_data_sets(gsn_entries, er_entries)`: the two list comprehensions
`[item for item in gsn_entries if item not in er_entries]` and
`[item for item in er_entries if item not in gsn_entries]`; the returned
lists are exactly these (the source sorts only the copies written to the
log, not the returned lists). -/
def compare_data_sets (gsn_entries er_entries : List String) : ComparisonResult :=
  { MissingInER := gsn_entries.filter (fun item => !er_entries.contains item)
    MissingInGSN := er_entries.filter (fun item => !gsn_entries.contains item) }

/-- Modelled from the spec wording of §4.4 (for comparison against the
implementation): normalize by trimming whitespace and dropping empty
entries. -/
def specNormalize (xs : List String) : List String :=
  (xs.map pyStrip).filter (fun s => !s.isEmpty)

/-- Modelled from the spec wording of §4.4: `sorted(unique(a) - unique(b))`
after normalization. -/
def specSetDiff (a b : List String) : List String :=
  pySorted (((specNormalize a).dedup).filter (fun x => !(specNormalize b).contains x))

/-- Modelled from the spec wording of §4.4: the comparator the spec
describes, to be compared against `compare_data_sets`. -/
def compare_data_sets_spec (a b : List String) : ComparisonResult :=
  { MissingInER := specSetDiff a b
    MissingInGSN := specSetDiff b a }

/-! ## DateRangeFormatter: `format_date_range` (src/src/utils/comparison.py:59-86) -/

structure SimpleDate where
  day : Nat
  month : Nat
  year : Nat
deriving DecidableEq, Repr

structure DateRangeResult where
  start_date : SimpleDate
  end_date : SimpleDate
deriving DecidableEq, Repr

/-- Python `date.strftime("%b")` month abbreviations (month is 1-12 for any
`datetime.date`). -/
def monthAbbrev : Nat → String
  | 1 => "Jan" | 2 => "Feb" | 3 => "Mar" | 4 => "Apr"
  | 5 => "May" | 6 => "Jun" | 7 => "Jul" | 8 => "Aug"
  | 9 => "Sep" | 10 => "Oct" | 11 => "Nov" | 12 => "Dec"
  | _ => ""

/-- Python `date.strftime("%B")` full month names. -/
def monthFull : Nat → String
  | 1 => "January" | 2 => "February" | 3 => "March" | 4 => "April"
  | 5 => "May" | 6 => "June" | 7 => "July" | 8 => "August"
  | 9 => "September" | 10 => "October" | 11 => "November" | 12 => "December"
  | _ => ""

/-- Python `"%B" if full_month_name else "%b"` applied to a month number. -/
def strftimeMonth (full_month_name : Bool) (m : Nat) : String :=
  if full_month_name then monthFull m else monthAbbrev m

/-- Model of `format_date_range(date_range, full_month_name)`.  `none` models a falsy
`date_range` argument (the source returns `""`). -/
def format_date_range (date_range : Option DateRangeResult) (full_month_name : Bool) : String :=
  match date_range with
  | none => ""
  | some r =>
    let sd := r.start_date.day
    let ed := r.end_date.day
    let sy := r.start_date.year
    let ey := r.end_date.year
    if r.start_date.month == r.end_date.month && r.start_date.year == r.end_date.year then
      let m := strftimeMonth full_month_name r.start_date.month
      s!"{sd}-{ed} {m} {sy}"
    else
      let sm := strftimeMonth full_month_name r.start_date.month
      let em := strftimeMonth full_month_name r.end_date.month
      s!"{sd} {sm} - {ed} {em} {ey}"

/-! ## Worksheet-name sanitizer: `_clean_worksheet_name`
(src/src/utils/comparison.py:354-391) -/

def excelInvalidChars : List Char := ['\\', '/', '?', '*', '[', ']', ':']

/-- Model of `ExcelUpdater._clean_worksheet_name`: replace Excel-invalid characters
with underscores, truncate to 31 characters, substitute "Sheet" for blank
results, replace the reserved name "History", and strip the final result.
The sequential `str.replace` calls over single characters equal a
character-wise map. -/
def clean_worksheet_name (name : String) : String :=
  if name.isEmpty then "Sheet"
  else
    let clean1 := (name.toList.map (fun c => if excelInvalidChars.contains c then '_' else c)).asString
    let clean2 := if clean1.length > 31 then (clean1.toList.take 31).asString else clean1
    let clean3 := if (pyStrip clean2).isEmpty then "Sheet" else clean2
    let clean4 := if pyLower clean3 == "history" then "Report_History" else clean3
    pyStrip clean4

/-! ## WorksheetNameResolver: `_find_available_worksheet_name`
(src/src/utils/comparison.py:159-207).  The workbook is modelled by the list
of its worksheet names (`_worksheet_exists` is a membership test) and the
timestamp of the fallback branch is passed in as a parameter. -/

/-- The `while copy_number <= 100` loop of `_find_available_worksheet_name`,
structurally recursing on the number of remaining candidates: starting from
`n`, try `"{base} (copy {n})"`, `"{base} (copy {n+1})"`, ... for `fuel`
candidate numbers. -/
def findNumberedCopy (taken : List String) (base : String) : Nat → Nat → Option String
  | _, 0 => none
  | n, fuel + 1 =>
    let nstr := toString n
    let candidate := base ++ " (copy " ++ nstr ++ ")"
    if taken.contains candidate then findNumberedCopy taken base (n + 1) fuel
    else some candidate

/-- Model of `ExcelUpdater._find_available_worksheet_name(base_name)`: return
`base_name` if free, else `"{base_name} (copy)"`, else the first free
`"{base_name} (copy n)"` for `n` in 2..100, else a timestamp-suffixed
fallback. -/
def find_available_worksheet_name (taken : List String) (base_name timestamp : String) : String :=
  if !(taken.contains base_name) then base_name
  else
    let copy_name := base_name ++ " (copy)"
    if !(taken.contains copy_name) then copy_name
    else
      match findNumberedCopy taken base_name 2 99 with
      | some name => name
      | none => base_name ++ " (" ++ timestamp ++ ")"

/-- The candidate names the spec describes for collision avoidance, in order:
`"{base} (copy)"`, `"{base} (copy 2)"`, ..., `"{base} (copy 100)"`. -/
def copyCandidates (base : String) : List String :=
  (base ++ " (copy)") :: (List.range' 2 99).map (fun n => base ++ " (copy " ++ toString n ++ ")")

/-! ## ComparisonWriter: `_add_comparison_section`
(src/src/utils/comparison.py:901-938).  The model records the data the
method writes: the two header cells and, below them, either the single
merged centered "NIL" row or one row per sorted entry, plus the row index
the method returns. -/

structure SectionRow where
  value : String
  /-- The row is merged across the two columns of the section
  (`chr(64+start_col)` .. `chr(64+start_col+1)` on one row). -/
  merged : Bool
  centered : Bool
  /-- Number of worksheet columns the written cell spans. -/
  spanCols : Nat
deriving DecidableEq, Repr

structure SectionOutput where
  headerA : String
  headerB : String
  dataRows : List SectionRow
  nextRow : Nat
deriving DecidableEq, Repr

/-- Model of `ExcelUpdater._add_comparison_section(worksheet, data, header_text,
remarks_header, start_col, start_row)`. -/
def add_comparison_section (data : List String) (header_text remarks_header : String)
    (start_row : Nat) : SectionOutput :=
  let sorted_data := pySorted data
  if sorted_data.isEmpty then
    { headerA := header_text
      headerB := remarks_header
      dataRows := [{ value := "NIL", merged := true, centered := true, spanCols := 2 }]
      nextRow := start_row + 2 }
  else
    { headerA := header_text
      headerB := remarks_header
      dataRows := sorted_data.map
        (fun v => { value := v, merged := false, centered := false, spanCols := 1 })
      nextRow := start_row + 1 + sorted_data.length }

/-! ## Cell formatting reader: `ERExtractor.get_cell_formatting`
(src/src/processors/er_extractor.py:116-171).  An openpyxl cell is modelled
by the attributes the method reads: `cell.fill.start_color.rgb`,
`cell.font.color.rgb` and `cell.font.bold`.  `none` models an absent (or
`None`) attribute along the Python truthiness chains. -/

/-- The value of an openpyxl `rgb` attribute: a string (usually 8-char ARGB
or 6-char RGB) or an integer. -/
inductive PyRgb where
  | str (s : String)
  | int (n : Nat)
deriving DecidableEq, Repr

structure PyFill where
  start_color_rgb : Option PyRgb
deriving DecidableEq, Repr

structure PyFont where
  color_rgb : Option PyRgb
  bold : Option Bool
deriving DecidableEq, Repr

structure PyCell where
  fill : Option PyFill
  font : Option PyFont
deriving DecidableEq, Repr

/-- Python truthiness of an `rgb` value (`""` and `0` are falsy). -/
def rgbTruthy : PyRgb → Bool
  | .str s => !s.isEmpty
  | .int n => n != 0

def hexDigitChar (n : Nat) : Char :=
  if n < 10 then Char.ofNat (48 + n) else Char.ofNat (55 + n)

def hexDigitsAux : Nat → Nat → List Char
  | _, 0 => []
  | 0, _ => []
  | fuel + 1, n => hexDigitsAux fuel (n / 16) ++ [hexDigitChar (n % 16)]

/-- The uppercase hexadecimal digits of `n` (most significant first); the
fuel argument only drives the structural recursion and is never exhausted
because `n` has at most `n` hexadecimal digits. -/
def hexDigitsOf (n : Nat) : List Char :=
  hexDigitsAux n n

/-- Python `f"{n:06X}"`: uppercase hexadecimal, zero-padded to width 6. -/
def formatHex6 (n : Nat) : String :=
  let ds := if n = 0 then ['0'] else hexDigitsOf n
  (List.replicate (6 - ds.length) '0' ++ ds).asString

/-- The color-parsing branch of `get_cell_formatting`: an 8-character string
is ARGB (alpha dropped), a 6-character string is RGB, an integer is formatted
as 6 uppercase hex digits; any other string shape is unparseable (`none`,
and the caller keeps its default). -/
def parseRgbHex : PyRgb → Option String
  | .str s => if s.length == 8 then some ("#" ++ (s.toList.drop 2).asString)
              else if s.length == 6 then some ("#" ++ s)
              else none
  | .int n => some ("#" ++ formatHex6 n)

/-- One color chain of `get_cell_formatting`: if the `rgb` attribute is
present and truthy and parseable, the parsed color, else the default. -/
def colorOrDefault (rgb : Option PyRgb) (dflt : String) : String :=
  match rgb with
  | some v => if rgbTruthy v then (parseRgbHex v).getD dflt else dflt
  | none => dflt

/-- Python `cell.fill and cell.fill.start_color and cell.fill.start_color.rgb`. -/
def fillRgb (cell : PyCell) : Option PyRgb :=
  cell.fill.bind (·.start_color_rgb)

/-- Python `cell.font and cell.font.color and cell.font.color.rgb`. -/
def fontRgb (cell : PyCell) : Option PyRgb :=
  cell.font.bind (·.color_rgb)

/-- Python `cell.font.bold if cell.font and cell.font.bold else False`. -/
def cellBold (cell : PyCell) : Bool :=
  match cell.font with
  | some f => f.bold.getD false
  | none => false

structure CellFormatting where
  cell_colour : String
  font_colour : String
  isBolded : String
deriving DecidableEq, Repr

/-- Model of `ERExtractor.get_cell_formatting(cell)`: background color defaulting to
white, font color defaulting to black, bold flag as "bold"/"normal"; all
parse failures fall back to the defaults (the surrounding try/except blocks
of the source). -/
def get_cell_formatting (cell : PyCell) : CellFormatting :=
  { cell_colour := colorOrDefault (fillRgb cell) "#FFFFFF"
    font_colour := colorOrDefault (fontRgb cell) "#000000"
    isBolded := if cellBold cell then "bold" else "normal" }

/-- The claim scope "fill color cannot be parsed or carries no explicit
color", read off the truthiness chain and parsing branches of the source. -/
def fillColorMissing (cell : PyCell) : Prop :=
  match fillRgb cell with
  | none => True
  | some v => rgbTruthy v = false ∨ parseRgbHex v = none

/-- The claim scope for the font color, symmetrically. -/
def fontColorMissing (cell : PyCell) : Prop :=
  match fontRgb cell with
  | none => True
  | some v => rgbTruthy v = false ∨ parseRgbHex v = none

/-! ## BlockExtractor, ER variant: `ERExtractor.extract_er_data`
(src/src/processors/er_extractor.py:173-390).  The worksheet is modelled as
a list of rows, each row the list of its cells; a cell carries the string
form of its value (`""` for `None`, as built into the `rows` array by the
source) together with the openpyxl formatting attributes read through
`get_cell_formatting`.  The model covers the function from the point where
the worksheet has been loaded and the abbreviated search date range
computed. -/

structure ECell where
  value : String
  cell : PyCell
deriving DecidableEq, Repr

/-- The gray stop colors of the source: the canonical sentinel `#AEAAAA`
plus the tolerance list `gray_colors`. -/
def grayColors : List String :=
  ["#AEAAAA", "#AEAAAE", "#AEAAA", "#EFEFEF", "#F2F2F2", "#E0E0E0", "#D3D3D3"]

/-- ASCII uppercase of a color string (Python `str.upper()`). -/
def pyUpper (s : String) : String :=
  (s.toList.map Char.toUpper).asString

/-- A cell triggers the color stop: its background, uppercased, is
`#AEAAAA` or one of the `gray_colors` (the first check is subsumed by the
second, which includes `#AEAAAA`). -/
def cellIsGray (c : ECell) : Bool :=
  (grayColors.map pyUpper).contains (pyUpper (get_cell_formatting c.cell).cell_colour)

/-- Color stop condition of the row: a gray background in any of the first
3 columns. -/
def rowHasGray (row : List ECell) : Bool :=
  (row.take 3).any cellIsGray

/-- Foreign-date stop condition: some truthy cell of the row matches the
date-range pattern and differs (stripped) from the searched date range. -/
def rowStopsOnForeignDate (search : String) (row : List ECell) : Bool :=
  row.any (fun c => !c.value.isEmpty && matchesDateRangePattern c.value
    && pyStrip c.value != search)

/-- End-of-used-range stop condition: the first 3 cells are all blank after
stripping. -/
def rowIsEmpty3 (row : List ECell) : Bool :=
  (row.take 3).all (fun c => (pyStrip c.value).isEmpty)

structure ERCellData where
  content : String
  colour : String
  fontColour : String
  isBolded : String
  colspan : Option Nat
  merged : Bool
deriving DecidableEq, Repr

structure ERRowData where
  col1 : ERCellData
  col2 : ERCellData
  col3 : ERCellData
deriving DecidableEq, Repr

/-- The special first emitted row (the date-range header): merged across 3
columns with the sentinel background hard-coded by the source. -/
def erHeaderRowData (search : String) : ERRowData :=
  { col1 := { content := search, colour := "#AEAAAA", fontColour := "#000000",
              isBolded := "bold", colspan := some 3, merged := false }
    col2 := { content := "", colour := "#AEAAAA", fontColour := "#000000",
              isBolded := "normal", colspan := none, merged := true }
    col3 := { content := "", colour := "#AEAAAA", fontColour := "#000000",
              isBolded := "normal", colspan := none, merged := true } }

/-- One data cell of a normal emitted row: empty/missing value becomes the
literal `"<br>"`, bold content is wrapped in `<b></b>`, colors come from
`get_cell_formatting` (a missing cell reads as an openpyxl blank cell). -/
def erDataCell (row : List ECell) (colIdx : Nat) : ERCellData :=
  let content := match row.get? colIdx with
    | some c => if c.value.isEmpty then "<br>" else c.value
    | none => "<br>"
  let fmt := match row.get? colIdx with
    | some c => get_cell_formatting c.cell
    | none => get_cell_formatting { fill := none, font := none }
  let content2 := if fmt.isBolded == "bold" then "<b>" ++ content ++ "</b>" else content
  { content := content2, colour := fmt.cell_colour, fontColour := fmt.font_colour,
    isBolded := fmt.isBolded, colspan := none, merged := false }

/-- The RowRecord emitted for the row at `idx`: the merged header when `idx`
is the start row, a plain 3-column record otherwise. -/
def erBuildRowData (search : String) (isStart : Bool) (row : List ECell) : ERRowData :=
  if isStart then erHeaderRowData search
  else { col1 := erDataCell row 0, col2 := erDataCell row 1, col3 := erDataCell row 2 }

/-- The extraction loop of `extract_er_data` (`for row_index in
range(start_row_index, len(rows))`), with its stop conditions in source
order: foreign date range (skipped on the start row), gray sentinel color,
empty first 3 columns, and the 200-row safety cap checked after each
append. -/
def erExtractLoop (search : String) (startIdx : Nat) :
    Nat → List (List ECell) → List ERRowData → Nat → List ERRowData
  | _, [], body, _ => body
  | idx, row :: rest, body, cnt =>
    if decide (startIdx < idx) && rowStopsOnForeignDate search row then body
    else if rowHasGray row then body
    else if rowIsEmpty3 row then body
    else
      let body2 := body ++ [erBuildRowData search (idx == startIdx) row]
      if 200 ≤ cnt + 1 then body2
      else erExtractLoop search startIdx (idx + 1) rest body2 (cnt + 1)

/-- Model of `extract_er_data` from the located worksheet on: find the first row
containing the search date range as a substring of some cell, then run the
extraction loop from it.  Result triple `(success, data, error_message)`;
every stop condition (and the safety cap) yields `success = true`. -/
def extract_er_data (ws : List (List ECell)) (search : String) :
    Bool × List ERRowData × String :=
  match pyFindIdx (fun row => row.any (fun c => strContains c.value search)) ws with
  | none => (false, [], "Date range \u0027" ++ search ++ "\u0027 not found in worksheet")
  | some s => (true, erExtractLoop search s s (ws.drop s) [] 0, "")

/-- Concrete cells and rows for the block-extraction scenarios: a default
(white) cell, and a cell with the sentinel ARGB fill `FFAEAAAA`. -/
def wCellPy : PyCell := { fill := none, font := none }

def grayCellPy : PyCell := { fill := some { start_color_rgb := some (.str "FFAEAAAA") }, font := none }

def erRow3 (a b c : String) : List ECell :=
  [{ value := a, cell := wCellPy }, { value := b, cell := wCellPy }, { value := c, cell := wCellPy }]

def erGrayRow : List ECell :=
  [{ value := "", cell := grayCellPy }, { value := "", cell := wCellPy },
   { value := "", cell := wCellPy }]

/-- The worksheet refuting C3 as stated: the start marker is located at row
index 0 and the gray sentinel fill appears in the first 3 columns only at
row index 5 (= start+5), but row start+1 is blank. -/
def c3ws : List (List ECell) :=
  [erRow3 "2-3 Jun 2025" "x" "y", erRow3 "" "" "", erRow3 "a" "b" "c",
   erRow3 "d" "e" "f", erRow3 "g" "h" "i", erGrayRow]

/-! ## BlockExtractor, GSN VS AD variant:
`GSNvsADExtractor.extract_gsn_vs_ad_data`
(src/src/processors/gsn_vs_ad_extractor.py:106-235).  The worksheet is
modelled as a list of rows of cell-value strings (`""` models a `None`
value, which behaves identically under every check the source performs);
the pre-computed `target_row_texts` list is a parameter. -/

/-- Python `worksheet.cell(row, col).value` as a string, for the 6 fixed columns
(reading past the stored row yields an empty cell). -/
def gCell (row : List String) (i : Nat) : String :=
  row.getD i ""

/-- All of the first 6 columns of the row are empty/whitespace. -/
def gRowAllEmpty (row : List String) : Bool :=
  (List.range 6).all (fun i => (pyStrip (gCell row i)).isEmpty)

/-- The `contains_date_range` flag: column 1 is truthy, contains
"GSN VS AD", and contains none of the target texts (stripped). -/
def gRowContainsDateRange (targets : List String) (row : List String) : Bool :=
  let c0 := gCell row 0
  !(pyStrip c0).isEmpty && strContains c0 "GSN VS AD"
    && !(targets.any (fun t => strContains (pyStrip c0) t))

/-- First stop condition of the loop: all columns empty and no target text
anywhere in them. -/
def gRowStopsEmpty (targets : List String) (row : List String) : Bool :=
  gRowAllEmpty row
    && !((List.range 6).any (fun i => targets.any (fun t => strContains (gCell row i) t)))

/-- The row record the loop appends: the stripped values of the non-empty
cells among the first 6 columns (empty cells are skipped by the source,
because the append is inside the truthiness guard). -/
def gRowData (row : List String) : List String :=
  ((List.range 6).map (gCell row)).filterMap
    (fun v => if (pyStrip v).isEmpty then none else some (pyStrip v))

/-- The extraction loop of `extract_gsn_vs_ad_data`: stop on an all-empty
row, stop on a new date range after the start row, append non-empty rows,
and stop at the 50-row safety cap. -/
def gsnExtractLoop (targets : List String) (startIdx : Nat) :
    Nat → List (List String) → List (List String) → Nat → List (List String)
  | _, [], data, _ => data
  | idx, row :: rest, data, cnt =>
    if gRowStopsEmpty targets row then data
    else if gRowContainsDateRange targets row && decide (startIdx < idx) then data
    else
      let rd := gRowData row
      let data2 := if rd.isEmpty then data else data ++ [rd]
      let cnt2 := if rd.isEmpty then cnt else cnt + 1
      if 50 ≤ cnt2 then data2
      else gsnExtractLoop targets startIdx (idx + 1) rest data2 cnt2

/-- Model of `extract_gsn_vs_ad_data` from the located worksheet on: find the first
row one of whose first 6 cells is truthy and contains a target text, then
run the loop from it. -/
def extract_gsn_vs_ad_data (ws : List (List String)) (targets : List String) :
    Bool × List (List String) × String :=
  match pyFindIdx (fun row => (List.range 6).any
      (fun i => !(gCell row i).isEmpty && targets.any (fun t => strContains (gCell row i) t))) ws with
  | none => (false, [], "Target row text not found")
  | some s => (true, gsnExtractLoop targets s s (ws.drop s) [] 0, "")

/-! ## MFA/AD-EDS read path: `WeeklyReportExtractor.extract_from_file` and
`extract_data_for_date_range_gui`
(src/src/processors/weekly_report_extractor.py:225-357, 436-463).  A
workbook is a list of (sheet name, rows) pairs, a row the list of its cell
strings (a pandas NaN cell is modelled by `""`, matching the
`str(...)/isna` handling of the source); the month name and year extracted
from the date-range string are parameters. -/

/-- The three-tier worksheet matching of `extract_from_file`: exact
"MFA, AD EDS {month}" + year substring match, then "MFA, AD EDS" +
3-letter month abbreviation + year, then any sheet containing the month
(or its abbreviation) and the year. -/
def find_target_sheet (all_sheets : List String) (month_name year : String) : Option String :=
  let month_abbr := (month_name.toList.take 3).asString
  match all_sheets.find? (fun s =>
      strContains s ("MFA, AD EDS " ++ month_name) && strContains s year) with
  | some s => some s
  | none =>
    match all_sheets.find? (fun s =>
        strContains s "MFA, AD EDS" && strContains s month_abbr && strContains s year) with
    | some s => some s
    | none =>
      all_sheets.find? (fun s =>
        (strContains s month_name && strContains s year)
          || (strContains s month_abbr && strContains s year))

/-- Model of `extract_from_file(file_path, date_range_str)`: locate the target sheet
(returning an empty list when none matches — the source logs and `return
[]`s, it raises nothing), find the start row (exact stripped match on the
first cell, else substring), cut at the next date-range-patterned first
cell, and keep the stripped non-empty rows. -/
def extract_from_file (wb : List (String × List (List String)))
    (month_name year date_range_str : String) : List (List String) :=
  let all_sheets := wb.map Prod.fst
  match find_target_sheet all_sheets month_name year with
  | none => []
  | some target =>
    let df := ((wb.find? (fun p => p.1 == target)).map Prod.snd).getD []
    let start? :=
      match pyFindIdx (fun (row : List String) => pyStrip (row.headD "") == date_range_str) df with
      | some i => some i
      | none => pyFindIdx (fun (row : List String) => strContains (row.headD "") date_range_str) df
    match start? with
    | none => []
    | some start_row =>
      let end_row :=
        match pyFindIdx (fun (row : List String) => matchesDateRangePattern (pyStrip (row.headD "")))
            (df.drop (start_row + 1)) with
        | some j => start_row + 1 + j
        | none => df.length
      let data_df := (df.drop start_row).take (end_row - start_row)
      let conv := data_df.map (fun row => row.map pyStrip)
      conv.filter (fun row => row.any (fun c => !c.isEmpty))

/-- Model of `extract_data_for_date_range_gui(date_range_str)`: wrap the extraction,
turning an empty result into `(False, [], error message)` and a non-empty
one into `(True, data, "")`. -/
def extract_data_for_date_range_gui (wb : List (String × List (List String)))
    (month_name year date_range_str : String) : Bool × List (List String) × String :=
  let data := extract_from_file wb month_name year date_range_str
  if data.isEmpty then
    (false, [], "No data found for date range \u0027" ++ date_range_str ++ "\u0027")
  else (true, data, "")

/-! ## Helper lemmas -/

/-- The reflection of `pyStrLt _ _ = false`: the at-most order underlying
Python string sorting. -/
def pyLe (a b : String) : Prop := pyStrLt b a = false

theorem pyListLt_asymm : ∀ a b, pyListLt a b = true → pyListLt b a = false := by
  intro a
  induction a with
  | nil =>
    intro b h
    cases b with
    | nil => simp [pyListLt] at h
    | cons c cs => simp [pyListLt]
  | cons x xs ih =>
    intro b h
    cases b with
    | nil => simp [pyListLt] at h
    | cons c cs =>
      simp [pyListLt] at h ⊢
      rcases h with h | ⟨he, hlt⟩
      · exact ⟨by omega, fun hc => by omega⟩
      · exact ⟨by omega, fun _ => ih cs hlt⟩

theorem pyListLt_trans : ∀ a b c, pyListLt a b = true → pyListLt b c = true →
    pyListLt a c = true := by
  intro a
  induction a with
  | nil =>
    intro b c h1 h2
    cases b with
    | nil => simp [pyListLt] at h1
    | cons y ys =>
      cases c with
      | nil => simp [pyListLt] at h2
      | cons z zs => simp [pyListLt]
  | cons x xs ih =>
    intro b c h1 h2
    cases b with
    | nil => simp [pyListLt] at h1
    | cons y ys =>
      cases c with
      | nil => simp [pyListLt] at h2
      | cons z zs =>
        simp [pyListLt] at h1 h2 ⊢
        rcases h1 with h1 | ⟨he1, hl1⟩ <;> rcases h2 with h2 | ⟨he2, hl2⟩
        · exact Or.inl (by omega)
        · exact Or.inl (by omega)
        · exact Or.inl (by omega)
        · exact Or.inr ⟨by omega, ih ys zs hl1 hl2⟩

theorem pyStrLt_asymm (a b : String) (h : pyStrLt a b = true) : pyStrLt b a = false :=
  pyListLt_asymm a.toList b.toList h

theorem pyLe_of_lt_of_le (x y z : String) (hxy : pyStrLt x y = true) (hyz : pyLe y z) :
    pyLe x z := by
  unfold pyLe at *
  cases hc : pyStrLt z x with
  | false => rfl
  | true =>
    have : pyStrLt z y = true := pyListLt_trans _ _ _ hc hxy
    rw [hyz] at this
    exact absurd this (by simp)

theorem pyInsert_perm (x : String) : ∀ l, (pyInsert x l).Perm (x :: l) := by
  intro l
  induction l with
  | nil => simp [pyInsert]
  | cons y ys ih =>
    by_cases h : pyStrLt x y = true
    · simp [pyInsert, h]
    · simp only [pyInsert, if_neg h]
      exact (ih.cons y).trans (List.Perm.swap x y ys)

theorem pySorted_perm : ∀ l, (pySorted l).Perm l := by
  intro l
  induction l with
  | nil => simp [pySorted]
  | cons a t ih =>
    have : pySorted (a :: t) = pyInsert a (pySorted t) := rfl
    rw [this]
    exact (pyInsert_perm a (pySorted t)).trans (ih.cons a)

theorem pyInsert_pairwise (x : String) :
    ∀ l, l.Pairwise pyLe → (pyInsert x l).Pairwise pyLe := by
  intro l
  induction l with
  | nil => intro _; simp [pyInsert, List.Pairwise]
  | cons y ys ih =>
    intro h
    rcases List.pairwise_cons.mp h with ⟨h1, h2⟩
    by_cases hxy : pyStrLt x y = true
    · simp only [pyInsert, if_pos hxy]
      refine List.pairwise_cons.mpr ⟨?_, h⟩
      intro z hz
      rcases List.mem_cons.mp hz with rfl | hz
      · exact pyStrLt_asymm x z hxy
      · exact pyLe_of_lt_of_le x y z hxy (h1 z hz)
    · simp only [pyInsert, if_neg hxy]
      refine List.pairwise_cons.mpr ⟨?_, ih h2⟩
      intro z hz
      rcases List.mem_cons.mp ((pyInsert_perm x ys).mem_iff.mp hz) with rfl | hz2
      · simpa [pyLe] using hxy
      · exact h1 z hz2

theorem pySorted_pairwise : ∀ l, (pySorted l).Pairwise pyLe := by
  intro l
  induction l with
  | nil => simp [pySorted, List.Pairwise]
  | cons a t ih => exact pyInsert_pairwise a (pySorted t) ih

theorem toStringString (s : String) : toString s = s := rfl

theorem pyFindIdx_append_first {α : Type} (p : α → Bool) (pre : List α) (x : α) (l : List α)
    (hpre : ∀ y ∈ pre, p y = false) (hx : p x = true) :
    pyFindIdx p (pre ++ x :: l) = some pre.length := by
  induction pre with
  | nil => simp [pyFindIdx, hx]
  | cons a t ih =>
    have ha : p a = false := hpre a (List.mem_cons_self a t)
    have ht : ∀ y ∈ t, p y = false := fun y hy => hpre y (List.mem_cons_of_mem a hy)
    simp [pyFindIdx, ha, ih ht]

theorem erExtractLoop_gray (search : String) (sIdx idx : Nat) (row : List ECell)
    (rest : List (List ECell)) (body : List ERRowData) (cnt : Nat)
    (hg : rowHasGray row = true) :
    erExtractLoop search sIdx idx (row :: rest) body cnt = body := by
  simp [erExtractLoop, hg]

theorem erExtractLoop_replicate (search : String) (sIdx : Nat) (r : List ECell)
    (hd : rowStopsOnForeignDate search r = false) (hg : rowHasGray r = false)
    (he : rowIsEmpty3 r = false) :
    ∀ n idx body cnt, sIdx < idx → cnt < 200 →
      erExtractLoop search sIdx idx (List.replicate n r) body cnt
        = body ++ List.replicate (min n (200 - cnt)) (erBuildRowData search false r) := by
  intro n
  induction n with
  | zero => intro idx body cnt _ _; simp [erExtractLoop]
  | succ n ih =>
    intro idx body cnt hidx hcnt
    rw [List.replicate_succ]
    have hbeq : (idx == sIdx) = false := beq_eq_false_iff_ne.mpr (by omega)
    by_cases hcap : 200 ≤ cnt + 1
    · have hc : cnt = 199 := by omega
      subst hc
      simp [erExtractLoop, hd, hg, he, hbeq, hcap]
    · have h1 : erExtractLoop search sIdx idx (r :: List.replicate n r) body cnt
          = erExtractLoop search sIdx (idx + 1) (List.replicate n r)
              (body ++ [erBuildRowData search false r]) (cnt + 1) := by
        simp [erExtractLoop, hd, hg, he, hbeq, hcap]
      rw [h1, ih (idx + 1) _ (cnt + 1) (by omega) (by omega)]
      rw [List.append_assoc]
      congr 1
      have hmin : min (n + 1) (200 - cnt) = (min n (200 - (cnt + 1))) + 1 := by omega
      rw [hmin, List.replicate_succ, List.singleton_append]

theorem gsnExtractLoop_replicate (targets : List String) (sIdx : Nat) (r : List String)
    (h1 : gRowStopsEmpty targets r = false) (h2 : gRowContainsDateRange targets r = false)
    (h3 : (gRowData r).isEmpty = false) :
    ∀ n idx data cnt, cnt < 50 →
      gsnExtractLoop targets sIdx idx (List.replicate n r) data cnt
        = data ++ List.replicate (min n (50 - cnt)) (gRowData r) := by
  intro n
  induction n with
  | zero => intro idx data cnt _; simp [gsnExtractLoop]
  | succ n ih =>
    intro idx data cnt hcnt
    rw [List.replicate_succ]
    by_cases hcap : 50 ≤ cnt + 1
    · have hc : cnt = 49 := by omega
      subst hc
      simp [gsnExtractLoop, h1, h2, h3, hcap]
    · have hstep : gsnExtractLoop targets sIdx idx (r :: List.replicate n r) data cnt
          = gsnExtractLoop targets sIdx (idx + 1) (List.replicate n r)
              (data ++ [gRowData r]) (cnt + 1) := by
        simp [gsnExtractLoop, h1, h2, h3, hcap]
      rw [hstep, ih (idx + 1) _ (cnt + 1) (by omega)]
      rw [List.append_assoc]
      congr 1
      have hmin : min (n + 1) (50 - cnt) = (min n (50 - (cnt + 1))) + 1 := by omega
      rw [hmin, List.replicate_succ, List.singleton_append]

theorem findNumberedCopy_eq (taken : List String) (base : String) :
    ∀ fuel n, findNumberedCopy taken base n fuel
      = ((List.range' n fuel).map
          (fun k => base ++ " (copy " ++ toString k ++ ")")).find?
          (fun c => !taken.contains c) := by
  intro fuel
  induction fuel with
  | zero => intro n; simp [findNumberedCopy]
  | succ fuel ih =>
    intro n
    rw [List.range'_succ]
    by_cases h : (base ++ " (copy " ++ toString n ++ ")") ∈ taken
    · simp [findNumberedCopy, h, ih (n + 1)]
    · simp [findNumberedCopy, h]

/-! ## Claim theorems -/

/-- C1: the claim states that `compare_data_sets` trims and drops empty
entries, deduplicates, and returns lexicographically sorted set differences.
Counterexample: on A = ["b", "a", "b"], B = [" a "] the code returns the
unnormalized, unsorted, duplicate-preserving lists (["b", "a", "b"] and
[" a "]), while the claimed behavior (spec-modelled comparator) yields
(["b"], []). -/
theorem c1_counterexample :
    compare_data_sets ["b", "a", "b"] [" a "]
      = { MissingInER := ["b", "a", "b"], MissingInGSN := [" a "] }
    ∧ compare_data_sets_spec ["b", "a", "b"] [" a "]
      = { MissingInER := ["b"], MissingInGSN := [] }
    ∧ compare_data_sets ["b", "a", "b"] [" a "]
      ≠ compare_data_sets_spec ["b", "a", "b"] [" a "] := by
  decide

/-- C1 (amended): `compare_data_sets` performs no normalization, no
deduplication and no sorting of its outputs: `MissingInER` is exactly the
order- and multiplicity-preserving sublist of the first input of entries
not occurring (by exact string equality) in the second input, and
`MissingInGSN` symmetrically; sorting happens only in the log output. -/
theorem c1_amended (a b : List String) :
    (∀ x, x ∈ (compare_data_sets a b).MissingInER ↔ x ∈ a ∧ x ∉ b)
    ∧ (∀ x, x ∈ (compare_data_sets a b).MissingInGSN ↔ x ∈ b ∧ x ∉ a)
    ∧ (compare_data_sets a b).MissingInER.Sublist a
    ∧ (compare_data_sets a b).MissingInGSN.Sublist b
    ∧ (∀ x, x ∉ b → (compare_data_sets a b).MissingInER.count x = a.count x)
    ∧ (∀ x, x ∈ b → (compare_data_sets a b).MissingInER.count x = 0) := by
  refine ⟨?_, ?_, ?_, ?_, ?_, ?_⟩
  · intro x; simp [compare_data_sets]
  · intro x; simp [compare_data_sets]
  · exact List.filter_sublist a
  · exact List.filter_sublist b
  · intro x hx
    simp [compare_data_sets]
    exact List.count_filter (by simpa using hx)
  · intro x hx
    have hnot : x ∉ (compare_data_sets a b).MissingInER := by
      simp [compare_data_sets, hx]
    exact List.count_eq_zero.mpr hnot

/-- Closed instance of `c1_amended`. -/
theorem c1_witness : "a" ∈ (compare_data_sets ["a"] ["b"]).MissingInER :=
  ((c1_amended ["a"] ["b"]).1 "a").mpr (by decide)

/-- C7: no string occurs in both outputs of `compare_data_sets`: their list
intersection is always empty. -/
theorem c7_exclusivity (a b : List String) :
    ((compare_data_sets a b).MissingInER).inter ((compare_data_sets a b).MissingInGSN)
      = [] := by
  rw [List.eq_nil_iff_forall_not_mem]
  intro x hx
  have h1 : x ∈ (compare_data_sets a b).MissingInER := List.mem_inter_iff.mp hx |>.1
  have h2 : x ∈ (compare_data_sets a b).MissingInGSN := List.mem_inter_iff.mp hx |>.2
  simp [compare_data_sets] at h1 h2
  exact h1.2 h2.1

/-- C10: the claim says `_clean_worksheet_name` never returns a string that
is case-insensitively "History".  The code violates this (and its own
comment "Cannot be: History (reserved)") because the final `strip()` runs
after the reserved-name check: on input " history " the check compares
" history " to "history" and passes, and the returned stripped value is
"history". -/
theorem c10_bug_eval :
    clean_worksheet_name " history " = "history"
    ∧ pyLower (clean_worksheet_name " history ") = pyLower "History" := by
  decide

/-- C5: `format_date_range` produces "{d1}-{d2} {Month} {year}" when start
and end share month and year (including the single-day case), and
"{d1} {Month1} - {d2} {Month2} {year}" otherwise, with 3-letter month
abbreviations when `full_month_name` is false; checked on the three
examples of the claim. -/
theorem c5_format_date_range :
    (∀ (dr : DateRangeResult) (full : Bool),
      (dr.start_date.month == dr.end_date.month
        && dr.start_date.year == dr.end_date.year) = true →
      format_date_range (some dr) full
        = toString dr.start_date.day ++ "-" ++ toString dr.end_date.day ++ " "
          ++ strftimeMonth full dr.start_date.month ++ " " ++ toString dr.start_date.year)
    ∧ (∀ (dr : DateRangeResult) (full : Bool),
      (dr.start_date.month == dr.end_date.month
        && dr.start_date.year == dr.end_date.year) = false →
      format_date_range (some dr) full
        = toString dr.start_date.day ++ " " ++ strftimeMonth full dr.start_date.month
          ++ " - " ++ toString dr.end_date.day ++ " " ++ strftimeMonth full dr.end_date.month
          ++ " " ++ toString dr.end_date.year)
    ∧ format_date_range (some ⟨⟨2, 6, 2025⟩, ⟨2, 6, 2025⟩⟩) false = "2-2 Jun 2025"
    ∧ format_date_range (some ⟨⟨2, 6, 2025⟩, ⟨5, 6, 2025⟩⟩) false = "2-5 Jun 2025"
    ∧ format_date_range (some ⟨⟨30, 5, 2025⟩, ⟨2, 6, 2025⟩⟩) false = "30 May - 2 Jun 2025" := by
  refine ⟨?_, ?_, by decide, by decide, by decide⟩
  · intro dr full h
    simp only [format_date_range, h, if_true]
    simp [toStringString, String.append_assoc, String.append_empty]
  · intro dr full h
    simp only [format_date_range, h, Bool.false_eq_true, if_false]
    simp [toStringString, String.append_assoc, String.append_empty]

/-- Closed instance of `c5_format_date_range`. -/
theorem c5_witness :
    format_date_range (some ⟨⟨13, 2, 2025⟩, ⟨17, 2, 2025⟩⟩) false
      = toString 13 ++ "-" ++ toString 17 ++ " " ++ strftimeMonth false 2 ++ " "
        ++ toString 2025 :=
  c5_format_date_range.1 ⟨⟨13, 2, 2025⟩, ⟨17, 2, 2025⟩⟩ false (by decide)

/-- C6: a comparison section written from an empty list contains exactly one
data row, the literal "NIL", centered and merged across the two section
columns; a section written from a non-empty list contains one unmerged row
per entry, in Python sorted order (a permutation of the input, pairwise
non-decreasing under the code-point order). -/
theorem c6_nil_placeholder :
    (∀ (h r : String) (s : Nat),
      (add_comparison_section [] h r s).dataRows
        = [{ value := "NIL", merged := true, centered := true, spanCols := 2 }]
      ∧ (add_comparison_section [] h r s).nextRow = s + 2)
    ∧ (∀ (data : List String) (h r : String) (s : Nat), data ≠ [] →
      ((add_comparison_section data h r s).dataRows.map SectionRow.value).Perm data
      ∧ ((add_comparison_section data h r s).dataRows.map SectionRow.value).Pairwise pyLe
      ∧ (add_comparison_section data h r s).dataRows.length = data.length
      ∧ ∀ row ∈ (add_comparison_section data h r s).dataRows, row.merged = false) := by
  constructor
  · intro h r s
    constructor <;> simp [add_comparison_section, pySorted]
  · intro data h r s hdata
    have hp := pySorted_perm data
    have hne : (pySorted data).isEmpty = false := by
      cases hq : pySorted data with
      | nil =>
        rw [hq] at hp
        exact absurd hp.symm.eq_nil hdata
      | cons x xs => rfl
    have hcomp : (SectionRow.value ∘ fun v =>
        ({ value := v, merged := false, centered := false, spanCols := 1 } : SectionRow))
        = id := funext (fun v => rfl)
    refine ⟨?_, ?_, ?_, ?_⟩
    · simp only [add_comparison_section, hne, Bool.false_eq_true, if_false,
        List.map_map, hcomp, List.map_id]
      exact hp
    · simp only [add_comparison_section, hne, Bool.false_eq_true, if_false,
        List.map_map, hcomp, List.map_id]
      exact pySorted_pairwise data
    · simp only [add_comparison_section, hne, Bool.false_eq_true, if_false,
        List.length_map]
      exact hp.length_eq
    · intro row hrow
      simp only [add_comparison_section, hne, Bool.false_eq_true, if_false,
        List.mem_map] at hrow
      rcases hrow with ⟨v, _, rfl⟩
      rfl

/-- Closed instance of `c6_nil_placeholder`. -/
theorem c6_witness :
    ((add_comparison_section ["b", "a"] "In GSN but not in ER" "Remarks" 1).dataRows.map
      SectionRow.value).Perm ["b", "a"] :=
  (c6_nil_placeholder.2 ["b", "a"] "In GSN but not in ER" "Remarks" 1 (by decide)).1

/-- C4: `_find_available_worksheet_name` returns the desired name unchanged
when it is not taken; otherwise it returns the first untaken candidate among
"{name} (copy)", "{name} (copy 2)", ..., "{name} (copy 100)", falling back
to the timestamp-suffixed name only when all candidates are taken; and on a
workbook containing "ER 2025" and "ER 2025 (copy)", resolving "ER 2025"
yields "ER 2025 (copy 2)". -/
theorem c4_collision_policy :
    (∀ (taken : List String) (base ts : String), taken.contains base = false →
      find_available_worksheet_name taken base ts = base)
    ∧ (∀ (taken : List String) (base ts : String), taken.contains base = true →
      find_available_worksheet_name taken base ts
        = ((copyCandidates base).find? (fun c => !taken.contains c)).getD
            (base ++ " (" ++ ts ++ ")"))
    ∧ find_available_worksheet_name ["ER 2025", "ER 2025 (copy)"] "ER 2025" "20250101_120000"
      = "ER 2025 (copy 2)" := by
  refine ⟨?_, ?_, by decide⟩
  · intro taken base ts h
    simp only [find_available_worksheet_name, h, Bool.not_false, if_true]
  · intro taken base ts h
    simp only [find_available_worksheet_name, h, Bool.not_true, Bool.false_eq_true,
      if_false, copyCandidates]
    cases hcb : taken.contains (base ++ " (copy)") with
    | false =>
      rw [List.find?_cons_of_pos _ (by simpa using hcb)]
      simp [hcb]
    | true =>
      rw [List.find?_cons_of_neg _ (by simpa using hcb)]
      rw [findNumberedCopy_eq taken base 99 2]
      simp only [hcb, Bool.not_true, Bool.false_eq_true, if_false]
      cases hfind : ((List.range' 2 99).map
          (fun k => base ++ " (copy " ++ toString k ++ ")")).find?
          (fun c => !taken.contains c) with
      | none => simp [hfind]
      | some name => simp [hfind]

/-- Closed instance of `c4_collision_policy`. -/
theorem c4_witness :
    find_available_worksheet_name ["A"] "ER 2025" "ts" = "ER 2025"
    ∧ find_available_worksheet_name ["ER 2025"] "ER 2025" "ts"
      = ((copyCandidates "ER 2025").find? (fun c => !(["ER 2025"] : List String).contains c)).getD
          ("ER 2025" ++ " (" ++ "ts" ++ ")") :=
  ⟨c4_collision_policy.1 ["A"] "ER 2025" "ts" (by decide),
   c4_collision_policy.2.1 ["ER 2025"] "ER 2025" "ts" (by decide)⟩

/-- C8: the claim states that a cell whose colors are absent or unparseable
yields white background, black font, and bold state "normal".  The color
defaults are right, but the bold state is independent of the colors: a cell
with no colors whose font carries `bold=True` yields "bold". -/
theorem c8_counterexample :
    (get_cell_formatting ⟨none, some ⟨none, some true⟩⟩).cell_colour = "#FFFFFF"
    ∧ (get_cell_formatting ⟨none, some ⟨none, some true⟩⟩).font_colour = "#000000"
    ∧ (get_cell_formatting ⟨none, some ⟨none, some true⟩⟩).isBolded ≠ "normal" := by
  decide

theorem colorOrDefault_missing (o : Option PyRgb) (d : String)
    (h : match o with
      | none => True
      | some v => rgbTruthy v = false ∨ parseRgbHex v = none) :
    colorOrDefault o d = d := by
  cases o with
  | none => rfl
  | some v =>
    rcases h with ht | hp
    · simp [colorOrDefault, ht]
    · simp [colorOrDefault, hp]

/-- C8 (amended): `get_cell_formatting` is total (it never propagates an
error) and substitutes white for an absent/unparseable background color and
black for an absent/unparseable font color; the bold state is "bold" exactly
when the cell has a font with a truthy bold flag, and "normal" otherwise —
it is not forced to "normal" by missing colors. -/
theorem c8_amended (cell : PyCell)
    (h1 : fillColorMissing cell) (h2 : fontColorMissing cell) :
    get_cell_formatting cell
      = { cell_colour := "#FFFFFF", font_colour := "#000000",
          isBolded := if cellBold cell then "bold" else "normal" } := by
  unfold get_cell_formatting
  rw [colorOrDefault_missing _ _ h1, colorOrDefault_missing _ _ h2]

/-- Closed instance of `c8_amended`. -/
theorem c8_witness :
    get_cell_formatting ⟨none, none⟩
      = { cell_colour := "#FFFFFF", font_colour := "#000000", isBolded := "normal" } :=
  c8_amended ⟨none, none⟩ trivial trivial

/-- C2: the claim states that an unmatched month/year raises a hard
`WorksheetNotFoundError`.  No such exception class exists in the code:
`extract_from_file` returns the empty list on the no-match path (an empty
report value), and the GUI wrapper converts it into a `(False, [], message)`
failure triple.  Concretely, on a workbook with sheets "Sheet1" and "Data"
and request month "May", year "2025", the lookup returns normally. -/
theorem c2_counterexample :
    find_target_sheet ["Sheet1", "Data"] "May" "2025" = none
    ∧ extract_from_file [("Sheet1", [["x"]]), ("Data", [["y"]])] "May" "2025" "5-9 May 2025"
      = []
    ∧ extract_data_for_date_range_gui [("Sheet1", [["x"]]), ("Data", [["y"]])]
        "May" "2025" "5-9 May 2025"
      = (false, [], "No data found for date range \u00275-9 May 2025\u0027") := by
  decide

/-- C2 (amended): when no worksheet matches the requested month and year
under any of the three fallback tiers, `extract_from_file` returns an empty
list (no exception is raised; no `WorksheetNotFoundError` exists in the
code), and `extract_data_for_date_range_gui` surfaces the failure to the
caller as `(False, [], error message)` instead of rendering a blank
report. -/
theorem c2_amended (wb : List (String × List (List String))) (month year drs : String)
    (h : find_target_sheet (wb.map Prod.fst) month year = none) :
    extract_from_file wb month year drs = []
    ∧ extract_data_for_date_range_gui wb month year drs
      = (false, [], "No data found for date range \u0027" ++ drs ++ "\u0027") := by
  have h1 : extract_from_file wb month year drs = [] := by
    simp only [extract_from_file, h]
  exact ⟨h1, by simp [extract_data_for_date_range_gui, h1]⟩

/-- Closed instance of `c2_amended`. -/
theorem c2_witness :
    extract_from_file [("Sheet1", [["x"]])] "May" "2025" "5-9 May 2025" = []
    ∧ extract_data_for_date_range_gui [("Sheet1", [["x"]])] "May" "2025" "5-9 May 2025"
      = (false, [], "No data found for date range \u00275-9 May 2025\u0027") :=
  c2_amended [("Sheet1", [["x"]])] "May" "2025" "5-9 May 2025" (by decide)

theorem erExtractLoop_step (search : String) (sIdx idx : Nat) (row : List ECell)
    (rest : List (List ECell)) (body : List ERRowData) (cnt : Nat)
    (hcond : (decide (sIdx < idx) && rowStopsOnForeignDate search row) = false)
    (hg : rowHasGray row = false) (he : rowIsEmpty3 row = false)
    (hcap : cnt + 1 < 200) :
    erExtractLoop search sIdx idx (row :: rest) body cnt
      = erExtractLoop search sIdx (idx + 1) rest
          (body ++ [erBuildRowData search (idx == sIdx) row]) (cnt + 1) := by
  simp only [erExtractLoop, hcond, hg, he, Bool.false_eq_true, if_false]
  rw [if_neg (by omega)]

/-- C3: the claim states that whenever the gray sentinel appears in the
first 3 columns only at row start+5, extraction returns exactly 5 records.
Counterexample: on `c3ws` the start marker is at index 0, the sentinel color
appears only at index 5, yet `extract_er_data` returns 1 record, because the
all-blank-row stop condition fires at start+1 first. -/
theorem c3_counterexample :
    pyFindIdx (fun row => row.any (fun c => strContains c.value "2-3 Jun 2025")) c3ws
      = some 0
    ∧ c3ws.map rowHasGray = [false, false, false, false, false, true]
    ∧ (extract_er_data c3ws "2-3 Jun 2025").2.1.length = 1
    ∧ (extract_er_data c3ws "2-3 Jun 2025").2.1.length ≠ 5 := by
  decide

/-- C3 (amended): in a worksheet whose start marker row is `r0` and in which
the gray sentinel appears in the first 3 columns only at row start+5,
**provided the other stop conditions do not fire earlier** (no all-blank
first-3-columns row and no foreign date-range marker among rows start..start+4),
`extract_er_data` succeeds with exactly the 5 records for rows start through
start+4, never including the sentinel row.  (In the code the color check runs
on every row including the start row; it fires only after the start row
because the premise puts the gray only at start+5.) -/
theorem c3_amended (search : String) (pre : List (List ECell))
    (r0 r1 r2 r3 r4 r5 : List ECell) (rest : List (List ECell))
    (hpre : ∀ row ∈ pre, row.any (fun c => strContains c.value search) = false)
    (h0 : r0.any (fun c => strContains c.value search) = true)
    (hg0 : rowHasGray r0 = false) (hg1 : rowHasGray r1 = false)
    (hg2 : rowHasGray r2 = false) (hg3 : rowHasGray r3 = false)
    (hg4 : rowHasGray r4 = false) (hg5 : rowHasGray r5 = true)
    (he0 : rowIsEmpty3 r0 = false) (he1 : rowIsEmpty3 r1 = false)
    (he2 : rowIsEmpty3 r2 = false) (he3 : rowIsEmpty3 r3 = false)
    (he4 : rowIsEmpty3 r4 = false)
    (hd1 : rowStopsOnForeignDate search r1 = false)
    (hd2 : rowStopsOnForeignDate search r2 = false)
    (hd3 : rowStopsOnForeignDate search r3 = false)
    (hd4 : rowStopsOnForeignDate search r4 = false) :
    extract_er_data (pre ++ r0 :: r1 :: r2 :: r3 :: r4 :: r5 :: rest) search
      = (true, [erBuildRowData search true r0, erBuildRowData search false r1,
                erBuildRowData search false r2, erBuildRowData search false r3,
                erBuildRowData search false r4], "") := by
  have hfind : pyFindIdx (fun row => row.any (fun c => strContains c.value search))
      (pre ++ r0 :: r1 :: r2 :: r3 :: r4 :: r5 :: rest) = some pre.length :=
    pyFindIdx_append_first _ pre r0 _ hpre h0
  have hdrop : (pre ++ r0 :: r1 :: r2 :: r3 :: r4 :: r5 :: rest).drop pre.length
      = r0 :: r1 :: r2 :: r3 :: r4 :: r5 :: rest := List.drop_left pre _
  simp only [extract_er_data, hfind, hdrop]
  rw [erExtractLoop_step search pre.length pre.length r0 _ [] 0
    (by simp) hg0 he0 (by omega)]
  rw [erExtractLoop_step search pre.length (pre.length + 1) r1 _ _ 1
    (by simp [hd1]) hg1 he1 (by omega)]
  rw [erExtractLoop_step search pre.length (pre.length + 1 + 1) r2 _ _ 2
    (by simp [hd2]) hg2 he2 (by omega)]
  rw [erExtractLoop_step search pre.length (pre.length + 1 + 1 + 1) r3 _ _ 3
    (by simp [hd3]) hg3 he3 (by omega)]
  rw [erExtractLoop_step search pre.length (pre.length + 1 + 1 + 1 + 1) r4 _ _ 4
    (by simp [hd4]) hg4 he4 (by omega)]
  rw [erExtractLoop_gray search pre.length _ r5 rest _ 5 hg5]
  have b0 : (pre.length == pre.length) = true := by simp
  have b1 : (pre.length + 1 == pre.length) = false := by
    exact beq_eq_false_iff_ne.mpr (by omega)
  have b2 : (pre.length + 1 + 1 == pre.length) = false := by
    exact beq_eq_false_iff_ne.mpr (by omega)
  have b3 : (pre.length + 1 + 1 + 1 == pre.length) = false := by
    exact beq_eq_false_iff_ne.mpr (by omega)
  have b4 : (pre.length + 1 + 1 + 1 + 1 == pre.length) = false := by
    exact beq_eq_false_iff_ne.mpr (by omega)
  simp [b0, b1, b2, b3, b4]

/-- Closed instance of `c3_amended`: a seven-row worksheet whose sentinel
sits exactly at start+5 and whose data rows are clean yields exactly the 5
records for rows start..start+4. -/
theorem c3_witness :
    extract_er_data
      (erRow3 "2-3 Jun 2025" "x" "y" :: erRow3 "h1" "h2" "h3" :: erRow3 "a" "b" "c"
        :: erRow3 "d" "e" "f" :: erRow3 "g" "h" "i" :: erGrayRow :: [erRow3 "z" "z" "z"])
      "2-3 Jun 2025"
      = (true, [erBuildRowData "2-3 Jun 2025" true (erRow3 "2-3 Jun 2025" "x" "y"),
                erBuildRowData "2-3 Jun 2025" false (erRow3 "h1" "h2" "h3"),
                erBuildRowData "2-3 Jun 2025" false (erRow3 "a" "b" "c"),
                erBuildRowData "2-3 Jun 2025" false (erRow3 "d" "e" "f"),
                erBuildRowData "2-3 Jun 2025" false (erRow3 "g" "h" "i")], "") := by
  have h := c3_amended "2-3 Jun 2025" [] (erRow3 "2-3 Jun 2025" "x" "y")
    (erRow3 "h1" "h2" "h3") (erRow3 "a" "b" "c") (erRow3 "d" "e" "f")
    (erRow3 "g" "h" "i") erGrayRow [erRow3 "z" "z" "z"]
    (by intro row hrow; simp at hrow) (by decide)
    (by decide) (by decide) (by decide) (by decide) (by decide) (by decide)
    (by decide) (by decide) (by decide) (by decide) (by decide)
    (by decide) (by decide) (by decide) (by decide)
  simpa using h

/-- C9: when the hard safety cap on extracted rows (200 for the ER variant,
50 for the GSN VS AD variant) is reached before any other stop condition
fires, both extractors stop and return the partial rows extracted so far
with a success result (`success = true` and an empty error message), not an
error: on a worksheet whose start row is followed by 220 (resp. 60) clean
data rows with no stop condition, the ER extractor returns exactly the
header plus 199 records (200 rows) and the GSN VS AD extractor returns
exactly the start record plus 49 records (50 rows), both successfully. -/
theorem c9_safety_cap :
    (∀ (search : String) (r0 r : List ECell),
      r0.any (fun c => strContains c.value search) = true →
      rowHasGray r0 = false → rowIsEmpty3 r0 = false →
      rowStopsOnForeignDate search r = false → rowHasGray r = false →
      rowIsEmpty3 r = false →
      extract_er_data (r0 :: List.replicate 220 r) search
        = (true, erBuildRowData search true r0
            :: List.replicate 199 (erBuildRowData search false r), ""))
    ∧ (∀ (targets : List String) (r0 r : List String),
      (List.range 6).any (fun i => !(gCell r0 i).isEmpty
        && targets.any (fun t => strContains (gCell r0 i) t)) = true →
      gRowStopsEmpty targets r0 = false → (gRowData r0).isEmpty = false →
      gRowStopsEmpty targets r = false → gRowContainsDateRange targets r = false →
      (gRowData r).isEmpty = false →
      extract_gsn_vs_ad_data (r0 :: List.replicate 60 r) targets
        = (true, gRowData r0 :: List.replicate 49 (gRowData r), "")) := by
  constructor
  · intro search r0 r h0 hg0 he0 hd hg he
    have hfind : pyFindIdx (fun row => row.any (fun c => strContains c.value search))
        (r0 :: List.replicate 220 r) = some 0 := by
      simp [pyFindIdx, h0]
    simp only [extract_er_data, hfind, List.drop_zero]
    rw [erExtractLoop_step search 0 0 r0 _ [] 0 (by simp) hg0 he0 (by omega)]
    rw [erExtractLoop_replicate search 0 r hd hg he 220 1 _ 1 (by omega) (by omega)]
    have hmin : min 220 (200 - 1) = 199 := by norm_num
    simp [hmin]
  · intro targets r0 r h0 hs0 hr0 hs hc hr
    have hfind : pyFindIdx (fun row => (List.range 6).any
        (fun i => !(gCell row i).isEmpty && targets.any (fun t => strContains (gCell row i) t)))
        (r0 :: List.replicate 60 r) = some 0 := by
      simp [pyFindIdx, h0]
    simp only [extract_gsn_vs_ad_data, hfind, List.drop_zero]
    have hstep : ∀ R : List (List String), gsnExtractLoop targets 0 0 (r0 :: R) [] 0
        = gsnExtractLoop targets 0 1 R [gRowData r0] 1 := by
      intro R
      simp only [gsnExtractLoop, hs0, Bool.false_eq_true, if_false, hr0]
      rw [if_neg (by simp), if_neg (by omega)]
      simp
    rw [hstep (List.replicate 60 r),
      gsnExtractLoop_replicate targets 0 r hs hc hr 60 1 _ 1 (by omega)]
    have hmin : min 60 (50 - 1) = 49 := by norm_num
    simp [hmin]

/-- Closed instance of `c9_safety_cap` for both variants. -/
theorem c9_witness :
    extract_er_data (erRow3 "2-3 Jun 2025" "x" "y" :: List.replicate 220 (erRow3 "a" "b" "c"))
      "2-3 Jun 2025"
      = (true, erBuildRowData "2-3 Jun 2025" true (erRow3 "2-3 Jun 2025" "x" "y")
          :: List.replicate 199 (erBuildRowData "2-3 Jun 2025" false (erRow3 "a" "b" "c")), "")
    ∧ extract_gsn_vs_ad_data
        (["1-2 Feb 2025 GSN VS AD", "", "", "", "", ""] :: List.replicate 60 ["x", "", "", "y", "", ""])
        ["1-2 February 2025 GSN VS AD", "1-2 Feb 2025 GSN VS AD"]
      = (true, gRowData ["1-2 Feb 2025 GSN VS AD", "", "", "", "", ""]
          :: List.replicate 49 (gRowData ["x", "", "", "y", "", ""]), "") :=
  ⟨c9_safety_cap.1 "2-3 Jun 2025" (erRow3 "2-3 Jun 2025" "x" "y") (erRow3 "a" "b" "c")
    (by decide) (by decide) (by decide) (by decide) (by decide) (by decide),
   c9_safety_cap.2 ["1-2 February 2025 GSN VS AD", "1-2 Feb 2025 GSN VS AD"]
    ["1-2 Feb 2025 GSN VS AD", "", "", "", "", ""] ["x", "", "", "y", "", ""]
    (by decide) (by decide) (by decide) (by decide) (by decide) (by decide)⟩

end Automation
